import Mathlib

/-!
Verification of the JSON:API resource/relationship request-dispatch engine
(`flask_rest_jsonapi/resource.py`).

The handlers are embedded as pure functions over a JSON value type.  External
collaborators (the marshmallow schema `load`, the persistence data layer, the
query-string manager) are modelled as parameters or as outcome data passed to
the handler; whether and with what arguments a persistence-contract operation
is invoked is recorded structurally in the handler's result type, so that
"the data layer is never called" is an equation on that result.
-/

set_option autoImplicit false

/-- JSON values as delivered by Flask's `request.get_json()`.  A Python `dict`
is an association list of string keys (lookup finds the unique binding),
`list` is `jarr`, strings/numbers/booleans/None as expected. -/
inductive JValue : Type where
  | jnull : JValue
  | jbool : Bool → JValue
  | jnum : Int → JValue
  | jstr : String → JValue
  | jarr : List JValue → JValue
  | jobj : List (String × JValue) → JValue
deriving Repr, Inhabited

mutual

/-- Python equality between two JSON values (structural). -/
def jvalBeq : JValue → JValue → Bool
  | .jnull, .jnull => true
  | .jbool a, .jbool b => a == b
  | .jnum a, .jnum b => a == b
  | .jstr a, .jstr b => a == b
  | .jarr xs, .jarr ys => jvalListBeq xs ys
  | .jobj xs, .jobj ys => jvalFieldsBeq xs ys
  | _, _ => false

/-- Elementwise Python equality of two JSON arrays. -/
def jvalListBeq : List JValue → List JValue → Bool
  | [], [] => true
  | x :: xs, y :: ys => jvalBeq x y && jvalListBeq xs ys
  | _, _ => false

/-- Fieldwise Python equality of two JSON objects. -/
def jvalFieldsBeq : List (String × JValue) → List (String × JValue) → Bool
  | [], [] => true
  | (k, v) :: xs, (k2, v2) :: ys => k == k2 && jvalBeq v v2 && jvalFieldsBeq xs ys
  | _, _ => false

end

/-- Python equality `v == s` between a JSON value and a Python string: true
exactly when `v` is that string (any non-string JSON value compares
unequal to a string). -/
def jIsStr : JValue → String → Bool
  | .jstr t, s => t == s
  | _, _ => false

/-- Association-list lookup, the embedding of Python `d[k]` / `d.get(k)` on a
dict represented as a key-value list. -/
def alistLookup {α : Type} : List (String × α) → String → Option α
  | [], _ => none
  | (k, v) :: rest, key => if k = key then some v else alistLookup rest key

/-- Lookup in a JSON object's field list. -/
def jLookup (fields : List (String × JValue)) (key : String) : Option JValue :=
  alistLookup fields key

/-- Substring occurrence, the semantics of Python `needle in hay` for
strings (for a non-empty needle). -/
def strOccurs (hay needle : String) : Bool :=
  (hay.splitOn needle).length != 1

/-- Python `key in v` for a JSON value: membership for dicts and lists,
substring test for strings, `TypeError` (modelled as `.error`) otherwise. -/
def pyContains : JValue → String → Except String Bool
  | .jobj fields, key => .ok (jLookup fields key).isSome
  | .jarr items, key => .ok (items.any (fun x => jIsStr x key))
  | .jstr s, key => .ok (strOccurs s key)
  | _, _ => .error "TypeError: argument is not iterable"

/-- Python `v[key]` for a JSON value: dict subscription, `KeyError` on a
missing key, `TypeError` on non-dicts. -/
def pyGetItem : JValue → String → Except String JValue
  | .jobj fields, key =>
      match jLookup fields key with
      | some v => .ok v
      | none => .error "KeyError"
  | _, _ => .error "TypeError: value is not subscriptable"

/-- Python `v.get(key)` for a JSON value: only dicts have `.get`, every other
value raises `AttributeError`. -/
def pyGet : JValue → String → Except String (Option JValue)
  | .jobj fields, key => .ok (jLookup fields key)
  | _, _ => .error "AttributeError: no attribute get"

/-- The two exception classes raised by the relationship/detail validation
code in `resource.py` (`raise BadRequest(pointer, detail)` and
`raise InvalidType(pointer, detail)`).  The constructor records which branch
raised, together with the JSON-pointer and detail message from the source. -/
inductive ApiExc : Type where
  | BadRequest (pointer detail : String)
  | InvalidType (pointer detail : String)
deriving Repr, DecidableEq

/-- Modelled from the spec: the error taxonomy (spec section 7) assigns HTTP
status 400 both to malformed-request conditions (`BadRequest`) and to
relationship-type-mismatch conditions (`InvalidType`).  The exceptions module
defining these classes is not among the modelled sources; only the status
number is taken from the spec table, the branch identity itself is the
constructor. -/
def ApiExc.status : ApiExc → Nat
  | .BadRequest _ _ => 400
  | .InvalidType _ _ => 400

/-- Result of a relationship mutator (`Relationship.post` / `patch` /
`delete`).  `error e` is the caught-exception path
(`return jsonapi_errors([e.to_dict()]), e.status`); `callLayer doc` means the
validation stage passed and the handler proceeds to invoke the persistence
contract's relation operation with the unchanged request document `doc`;
`fatal` is an uncaught Python exception (no JSON:API response at all). -/
inductive RelMutResult : Type where
  | error (e : ApiExc)
  | callLayer (doc : JValue)
  | fatal (msg : String)
deriving Repr

/-- Per-item loop of `Relationship.post` / `Relationship.delete`
(`for obj in json_data['data']: ...`): missing `type` then missing `id`
raise `BadRequest`, a `type` different from the schema's declared type
`type_` raises `InvalidType`. -/
def relItemsCheck (type_ : String) : List JValue → Except String (Option ApiExc)
  | [] => .ok none
  | obj :: rest =>
      match pyContains obj "type" with
      | .error msg => .error msg
      | .ok false => .ok (some (.BadRequest "/data/type" "Missing type in \"data\" node"))
      | .ok true =>
          match pyContains obj "id" with
          | .error msg => .error msg
          | .ok false => .ok (some (.BadRequest "/data/id" "Missing id in \"data\" node"))
          | .ok true =>
              match pyGetItem obj "type" with
              | .error msg => .error msg
              | .ok tval =>
                  if jIsStr tval type_ then relItemsCheck type_ rest
                  else .ok (some (.InvalidType "/data/type" "The type provided does not match the resource type"))

/-- The `try` block shared verbatim by `Relationship.post` and
`Relationship.delete`: `data` must be present, `json_data.get('data')` must
be a list, then the per-item loop runs.  `.ok none` means validation passed,
`.ok (some e)` is a raised-and-caught exception, `.error` an uncaught one. -/
def relListValidate (type_ : String) (json_data : JValue) : Except String (Option ApiExc) :=
  match pyContains json_data "data" with
  | .error msg => .error msg
  | .ok false => .ok (some (.BadRequest "/data" "You must provide data with a \"data\" route node"))
  | .ok true =>
      match pyGet json_data "data" with
      | .error msg => .error msg
      | .ok dval =>
          match dval with
          | some (.jarr items) => relItemsCheck type_ items
          | _ => .ok (some (.BadRequest "/data" "You must provide data as list"))

/-- Collapse a validation outcome into the handler result: a caught exception
becomes the error response, success proceeds to the data-layer call with the
unchanged document. -/
def collapseRel (json_data : JValue) : Except String (Option ApiExc) → RelMutResult
  | .error msg => .fatal msg
  | .ok (some e) => .error e
  | .ok none => .callLayer json_data

/-- `Relationship.post` (`resource.py` lines 343-371): validation of the
list-shaped document against the schema's declared type
`type_ = self.schema.opts.type_`, then `create_relation(json_data, ...)`. -/
def Relationship.post (type_ : String) (json_data : JValue) : RelMutResult :=
  collapseRel json_data (relListValidate type_ json_data)

/-- `Relationship.delete` (`resource.py` lines 411-439): identical validation
to `Relationship.post`, then `delete_relation(json_data, ...)`. -/
def Relationship.delete (type_ : String) (json_data : JValue) : RelMutResult :=
  collapseRel json_data (relListValidate type_ json_data)

/-- Per-item loop of the list branch of `Relationship.patch` (`resource.py`
lines 391-398).  Unlike `Relationship.post` / `delete`, the type-equality
test there reads `obj['type'] != self.type_` — the Relationship class
attribute `type_`, not the schema's declared type.  `selfType` is that
attribute (`none` when the class does not define it, in which case reaching
the comparison raises `AttributeError`, which the handler does not catch). -/
def relPatchItemsCheck (selfType : Option String) : List JValue → Except String (Option ApiExc)
  | [] => .ok none
  | obj :: rest =>
      match pyContains obj "type" with
      | .error msg => .error msg
      | .ok false => .ok (some (.BadRequest "/data/type" "Missing type in \"data\" node"))
      | .ok true =>
          match pyContains obj "id" with
          | .error msg => .error msg
          | .ok false => .ok (some (.BadRequest "/data/id" "Missing id in \"data\" node"))
          | .ok true =>
              match pyGetItem obj "type" with
              | .error msg => .error msg
              | .ok tval =>
                  match selfType with
                  | none => .error "AttributeError: no attribute type_"
                  | some st =>
                      if jIsStr tval st then relPatchItemsCheck selfType rest
                      else .ok (some (.InvalidType "/data/type" "The type provided does not match the resource type"))

/-- The `try` block of `Relationship.patch` (`resource.py` lines 381-400):
`data` must be present; a dict-shaped `data` is validated as a single object
against `type_ = self.schema.opts.type_`; a list-shaped `data` runs the
per-item loop comparing against `self.type_`; every other shape of `data`
fails both `isinstance` tests and falls through with no validation at all. -/
def relPatchValidate (type_ : String) (selfType : Option String) (json_data : JValue) :
    Except String (Option ApiExc) :=
  match pyContains json_data "data" with
  | .error msg => .error msg
  | .ok false => .ok (some (.BadRequest "/data" "You must provide data with a \"data\" route node"))
  | .ok true =>
      match pyGetItem json_data "data" with
      | .error msg => .error msg
      | .ok dval =>
          match dval with
          | .jobj dfields =>
              match jLookup dfields "type" with
              | none => .ok (some (.BadRequest "/data/type" "Missing type in \"data\" node"))
              | some tval =>
                  match jLookup dfields "id" with
                  | none => .ok (some (.BadRequest "/data/id" "Missing id in \"data\" node"))
                  | some _ =>
                      if jIsStr tval type_ then .ok none
                      else .ok (some (.InvalidType "/data/type" "The type field does not match the resource type"))
          | .jarr items => relPatchItemsCheck selfType items
          | _ => .ok none

/-- `Relationship.patch` (`resource.py` lines 374-408): the validation block,
then `update_relation(json_data, ...)` with the unchanged document. -/
def Relationship.patch (type_ : String) (selfType : Option String) (json_data : JValue) :
    RelMutResult :=
  collapseRel json_data (relPatchValidate type_ selfType json_data)

/-- A marshmallow error dict as found in `e.messages['errors']` / the
`errors['errors']` list returned by `schema.load`: the handler writes the
`status` and `title` keys (absent until then), every other key (detail,
source pointer) is opaque to the handler and kept in `detail`. -/
structure MErr : Type where
  status : Option String
  title : Option String
  detail : String
deriving Repr, DecidableEq

/-- The handler's in-place `error['status'] = s; error['title'] = t`
mutation of one marshmallow error dict. -/
def setStatusTitle (s t : String) (e : MErr) : MErr :=
  { e with status := some s, title := some t }

/-- Outcome of the external `schema.load(json_data)` call (the serialization
library is an external collaborator): it raises `IncorrectTypeError` when the
document's declared type mismatches the schema's declared type, raises
`ValidationError` on failing fields, or returns a `(data, errors)` pair whose
`errors` list may still be non-empty. -/
inductive LoadResult (α : Type) : Type where
  | incorrectTypeError (errors : List MErr)
  | validationError (errors : List MErr)
  | loaded (data : α) (errors : List MErr)

/-- Result of `ResourceList.post`: `errorResp errs status` is the
`return errors, status` path, `createObject data` means validation passed and
`self.data_layer.create_object(data, **kwargs)` is invoked (followed by the
201 response). -/
inductive ListPostResult (α : Type) : Type where
  | errorResp (errors : List MErr) (status : Nat)
  | createObject (data : α)
deriving Repr, DecidableEq

/-- `ResourceList.post` (`resource.py` lines 185-215) after the body parse,
as a function of the `schema.load` outcome: a raised `IncorrectTypeError`
yields 409 with every error stamped status "409" / title "Incorrect type";
a raised `ValidationError`, or a returned non-empty `errors` list, yields 422
with every error stamped status "422" / title "Validation error"; otherwise
`create_object` is invoked with the loaded data. -/
def ResourceList.post {α : Type} (load : LoadResult α) : ListPostResult α :=
  match load with
  | .incorrectTypeError errs =>
      .errorResp (errs.map (setStatusTitle "409" "Incorrect type")) 409
  | .validationError errs =>
      .errorResp (errs.map (setStatusTitle "422" "Validation error")) 422
  | .loaded data errs =>
      if errs.isEmpty then .createObject data
      else .errorResp (errs.map (setStatusTitle "422" "Validation error")) 422

/-- Result of `ResourceDetail.patch`: `errorResp` is a 409/422 envelope from
the load stage, `apiError e` the caught `BadRequest` from the id checks
(`return jsonapi_errors([e.to_dict()]), e.status`), `proceed data` means all
checks passed and the handler goes on to `get_object` / `update_object`,
`fatal` an uncaught Python exception. -/
inductive DetailPatchResult (α : Type) : Type where
  | errorResp (errors : List MErr) (status : Nat)
  | apiError (e : ApiExc)
  | proceed (data : α)
  | fatal (msg : String)
deriving Repr, DecidableEq

/-- `ResourceDetail.patch` (`resource.py` lines 242-288) as a function of the
`schema.load` outcome, the parsed body `json_data` and the route identifier
value `kwargs[self.data_layer.url_field]` (`url_id`): 409/422 branches first,
exactly as `ResourceList.post`; then `json_data['data']` must carry an `id`
(`BadRequest` with pointer `/data/id` otherwise), and that id must compare
equal (Python `==`) to the route identifier (`BadRequest`, same pointer,
different detail); only then is the fetch/update stage reached. -/
def ResourceDetail.patch {α : Type} (load : LoadResult α) (json_data : JValue)
    (url_id : JValue) : DetailPatchResult α :=
  match load with
  | .incorrectTypeError errs =>
      .errorResp (errs.map (setStatusTitle "409" "Incorrect type")) 409
  | .validationError errs =>
      .errorResp (errs.map (setStatusTitle "422" "Validation error")) 422
  | .loaded data errs =>
      if errs.isEmpty then
        match pyGetItem json_data "data" with
        | .error msg => .fatal msg
        | .ok dnode =>
            match pyContains dnode "id" with
            | .error msg => .fatal msg
            | .ok false => .apiError (.BadRequest "/data/id" "Missing id in \"data\" node")
            | .ok true =>
                match pyGetItem dnode "id" with
                | .error msg => .fatal msg
                | .ok idv =>
                    if jvalBeq idv url_id then .proceed data
                    else .apiError (.BadRequest "/data/id" "Value of id does not match the resource identifier in url")
      else .errorResp (errs.map (setStatusTitle "422" "Validation error")) 422

/-- Observable persistence/serialization steps of `ResourceList.get`, in the
order the handler performs them. -/
inductive GetEvent : Type where
  | fetchCollection
  | dumpObjects
deriving Repr, DecidableEq

/-- The `InvalidField` condition raised by the schema-computation
collaborator when the sparse-fieldset selection names an invalid field. -/
structure InvalidFieldE : Type where
  detail : String
deriving Repr, DecidableEq

/-- Modelled from the spec: `InvalidField` is a 400-class condition
(spec sections 4.3 and 4.4); the module defining the exception class is not
among the modelled sources. -/
def InvalidFieldE.status : InvalidFieldE → Nat := fun _ => 400

/-- Outcome of the external `compute_schema` call for a collection GET. -/
inductive SchemaOutcome : Type where
  | ok
  | invalidField (e : InvalidFieldE)

/-- Response of `ResourceList.get`: the caught-`InvalidField` error envelope
(`return jsonapi_errors([e.to_dict()]), e.status`) or the serialized page. -/
inductive ListGetResult : Type where
  | errorResp (e : InvalidFieldE) (status : Nat)
  | success
deriving Repr, DecidableEq

/-- `ResourceList.get` (`resource.py` lines 160-182) with the side effects it
performs recorded as an event trace: the handler first calls
`self.data_layer.get_collection(qs, **kwargs)` (line 165) and only then
computes the schema (line 170), whose `InvalidField` failure is caught and
returned as the error envelope.  The trace therefore carries
`fetchCollection` on both paths. -/
def ResourceList.get (schemaOutcome : SchemaOutcome) : List GetEvent × ListGetResult :=
  let fetched := [GetEvent.fetchCollection]
  match schemaOutcome with
  | .invalidField e => (fetched, .errorResp e e.status)
  | .ok => (fetched ++ [GetEvent.dumpObjects], .success)

/-- Outcome of `Resource.dispatch_request`'s handler resolution: either the
`assert meth is not None` failure (a fatal `AssertionError`, not a response)
or the chosen handler. -/
inductive DispatchOutcome (α : Type) : Type where
  | fatal (msg : String)
  | run (h : α)
deriving Repr, DecidableEq

/-- ASCII lower-casing, the semantics of Python `str.lower()` on an HTTP
method name. -/
def strLower (s : String) : String :=
  ⟨s.data.map Char.toLower⟩

/-- Handler resolution of `Resource.dispatch_request` (`resource.py` lines
130-132): `getattr(self, request.method.lower(), None)`, with a `HEAD`
request falling back to the `get` handler when no `head` handler is bound.
`handlers` is the attribute table of the endpoint class (lower-case handler
names). -/
def Resource.resolveHandler {α : Type} (handlers : String → Option α) (method : String) :
    Option α :=
  match handlers (strLower method) with
  | some h => some h
  | none => if method = "HEAD" then handlers "get" else none

/-- `Resource.dispatch_request` verb resolution (`resource.py` lines
129-133): a missing handler trips the assertion (`fatal`), a bound one is
invoked. -/
def Resource.dispatch_request {α : Type} (handlers : String → Option α) (method : String) :
    DispatchOutcome α :=
  match Resource.resolveHandler handlers method with
  | none => .fatal ("Unimplemented method " ++ method)
  | some h => .run h

/-- The shapes a handler may return that `dispatch_request` accepts: a raw
non-tuple body, a `(body, status)` pair, or a `(body, status, headers)`
triple. -/
inductive HandlerResp (β : Type) : Type where
  | raw (body : β)
  | pair (body : β) (status : Nat)
  | triple (body : β) (status : Nat) (headers : List (String × String))
deriving Repr, DecidableEq

/-- The local variables `data`, `status_code`, `headers` of
`dispatch_request` during response normalization; `none` models a
still-unbound local. -/
structure UnpackState (β : Type) : Type where
  data : Option β
  status_code : Option Nat
  headers : Option (List (String × String))
deriving Repr, DecidableEq

/-- First unpacking attempt `data, status_code, headers = resp` (lines
143-146): binds all three locals on a 3-tuple, and on any other shape the
`ValueError` is swallowed (`pass`) leaving the state unchanged. -/
def unpackTriple {β : Type} (resp : HandlerResp β) (st : UnpackState β) : UnpackState β :=
  match resp with
  | .triple b s h => ⟨some b, some s, some h⟩
  | _ => st

/-- Second unpacking attempt `data, status_code = resp; headers = {}` (lines
148-152): binds the locals on a 2-tuple (with empty headers), and on any
other shape the `ValueError` is swallowed leaving the state unchanged. -/
def unpackPair {β : Type} (resp : HandlerResp β) (st : UnpackState β) : UnpackState β :=
  match resp with
  | .pair b s => ⟨some b, some s, some []⟩
  | _ => st

/-- Response normalization of `Resource.dispatch_request` (`resource.py`
lines 140-154): a non-tuple body is wrapped by `make_response(json.dumps(resp))`
(status 200, no extra headers); a tuple goes through the two sequential
unpack attempts, after which `make_response(json.dumps(data), status_code,
headers)` reads the locals.  `none` is the undefined case in which a tuple of
another length leaves the locals unbound. -/
def Resource.normalizeResp {β : Type} (resp : HandlerResp β) :
    Option (β × Nat × List (String × String)) :=
  match resp with
  | .raw b => some (b, 200, [])
  | _ =>
      let st := unpackPair resp (unpackTriple resp ⟨none, none, none⟩)
      match st.data, st.status_code, st.headers with
      | some d, some s, some h => some (d, s, h)
      | _, _, _ => none

/-- A Python object as seen by the dotted-attribute lookup in
`Relationship.get`: either a leaf value (string / integer) or an object with
named attributes. -/
inductive PyObj : Type where
  | strv (s : String)
  | intv (n : Int)
  | objv (fields : List (String × PyObj))
deriving Repr, Inhabited

/-- `getattr(obj, name)`: attribute lookup on an object, `none` standing for
`AttributeError` (leaf values carry no relevant attributes). -/
def pyGetAttr : PyObj → String → Option PyObj
  | .objv fields, name => alistLookup fields name
  | _, _ => none

/-- The inner loop `for field in value.split('.'): tmp = getattr(tmp, field)`
of `Relationship.get` resolving one dotted attribute path against the fetched
owning object. -/
def resolveDotted (obj : PyObj) : List String → Option PyObj
  | [] => some obj
  | f :: fs =>
      match pyGetAttr obj f with
      | some v => resolveDotted v fs
      | none => none

/-- Splitting accumulator for `splitDots`: collects the current segment in
reverse. -/
def splitDotsAux : List Char → List Char → List String
  | [], acc => [⟨acc.reverse⟩]
  | c :: cs, acc =>
      if c = '.' then ⟨acc.reverse⟩ :: splitDotsAux cs []
      else splitDotsAux cs (c :: acc)

/-- Python `s.split('.')`: the dotted-path segments of a template string. -/
def splitDots (s : String) : List String :=
  splitDotsAux s.data []

/-- Resolution of one `endpoint_kwargs` entry value: `value.split('.')`
requires the stored value to still be a string (after the first request has
overwritten it with a resolved attribute value, `.split` raises
`AttributeError` unless that value happens to be a string). -/
def ekResolve (obj : PyObj) : PyObj → Except String PyObj
  | .strv s =>
      match resolveDotted obj (splitDots s) with
      | some v => .ok v
      | none => .error "AttributeError: missing attribute in dotted path"
  | _ => .error "AttributeError: no attribute split"

/-- In-place update `d[key] = v` of a Python dict represented as an
association list. -/
def alistSet {α : Type} : List (String × α) → String → α → List (String × α)
  | [], k, v => [(k, v)]
  | (k', v') :: rest, k, v =>
      if k' = k then (k, v) :: rest else (k', v') :: alistSet rest k v

/-- The mutation loop of `Relationship.get` (`resource.py` lines 318-323):
iterate over `copy(self.opts.endpoint_kwargs)` (the snapshot `snap`) and for
each key assign the resolved value into `self.opts.endpoint_kwargs` itself
(the accumulator `cur`).  An unresolvable entry raises, leaving the partial
mutation in place. -/
def ekLoop (obj : PyObj) (cur : List (String × PyObj)) :
    List (String × PyObj) → List (String × PyObj) × Option String
  | [] => (cur, none)
  | (key, value) :: rest =>
      match ekResolve obj value with
      | .ok v => ekLoop obj (alistSet cur key v) rest
      | .error msg => (cur, some msg)

/-- The options record of a Relationship endpoint (the `Meta`-derived `opts`
bound to the class at registration time), restricted to the field touched by
`Relationship.get`: the optional `endpoint_kwargs` template mapping link
route-parameter names to dotted attribute paths. -/
structure RelOpts : Type where
  endpoint_kwargs : Option (List (String × PyObj))
deriving Repr

/-- The link-parameter block of `Relationship.get` (`resource.py` lines
316-324) as a state-passing function: given the options record and the
owning object fetched by `get_relation`, it returns the options record as it
stands after the handler ran together with the kwargs used for the
`related` link (or the uncaught exception).  When `endpoint_kwargs` is
present the handler writes every resolved value back into
`self.opts.endpoint_kwargs`, so the returned record differs from the input
whenever some template resolves to a new value. -/
def Relationship.get_links (opts : RelOpts) (route_kwargs : List (String × PyObj))
    (obj : PyObj) : RelOpts × Except String (List (String × PyObj)) :=
  match opts.endpoint_kwargs with
  | none => (opts, .ok route_kwargs)
  | some ek =>
      match ekLoop obj ek ek with
      | (ek', none) => (⟨some ek'⟩, .ok ek')
      | (ek', some msg) => (⟨some ek'⟩, .error msg)

/-- A relationship-document item that passes every check of the
`Relationship.post` / `delete` per-item loop: a dict carrying `type` equal to
the declared type and carrying an `id`. -/
def relItemOkB (type_ : String) : JValue → Bool
  | .jobj f =>
      match jLookup f "type", jLookup f "id" with
      | some tv, some _ => jIsStr tv type_
      | _, _ => false
  | _ => false

/-- Relationship PATCH body `data: [ one item of type "person" with id "1" ]`,
used against a resource whose schema declares type "computer". -/
def c1doc : JValue :=
  .jobj [("data", .jarr [.jobj [("type", .jstr "person"), ("id", .jstr "1")]])]

/-- Relationship options with an `endpoint_kwargs` template mapping the link
parameter `id` to the dotted attribute path `owner.id`. -/
def c2opts : RelOpts := ⟨some [("id", PyObj.strv "owner.id")]⟩

/-- An owning object whose `owner.id` attribute path resolves to `"5"`. -/
def c2owner : PyObj := .objv [("owner", .objv [("id", .strv "5")])]

/-- A body with no `data` key. -/
def c3fieldsNoData : List (String × JValue) := [("meta", JValue.jnull)]

/-- A body whose `data` node is a dict rather than a list. -/
def c3fieldsDictData : List (String × JValue) :=
  [("data", .jobj [("type", .jstr "person"), ("id", .jstr "1")])]

/-- A list-shaped body whose single item lacks `id`. -/
def c3fieldsNoId : List (String × JValue) :=
  [("data", .jarr [.jobj [("type", .jstr "person")]])]

/-- A marshmallow error dict as produced before the handler stamps
status/title onto it. -/
def mErr0 : MErr := ⟨none, none, "bad type at /data/type"⟩

/-- A marshmallow field-validation error dict. -/
def mErr1 : MErr := ⟨none, none, "Missing data for required field at /data/attributes/name"⟩

/-- An `InvalidField` condition for an unknown sparse-fieldset name. -/
def c9err : InvalidFieldE := ⟨"Invalid fields querystring parameter"⟩

/-- A handler table binding only `get`, as on an endpoint class without a
`post`/`patch`/`delete` method. -/
def sampleHandlers : String → Option Nat := fun name => if name = "get" then some 7 else none

/-- A PATCH body whose `data` node carries no `id`. -/
def c6fieldsNoId : List (String × JValue) := [("data", JValue.jobj [("type", JValue.jstr "person")])]

/-- A PATCH body whose `data.id` is `"2"`. -/
def c6fieldsId2 : List (String × JValue) :=
  [("data", JValue.jobj [("type", JValue.jstr "person"), ("id", JValue.jstr "2")])]

/-- A relationship PATCH body whose `data` node is the string `"1"`, neither
a dict nor a list. -/
def c10fields : List (String × JValue) := [("data", JValue.jstr "1")]

/-! ## Helper lemmas -/

theorem relListValidate_jobj_no_data (type_ : String) (fields : List (String × JValue))
    (hd : jLookup fields "data" = none) :
    relListValidate type_ (.jobj fields) =
      .ok (some (.BadRequest "/data" "You must provide data with a \"data\" route node")) := by
  simp [relListValidate, pyContains, pyGet, hd]

theorem relListValidate_jobj_nonlist (type_ : String) (fields : List (String × JValue))
    (d : JValue) (hd : jLookup fields "data" = some d) (hne : ∀ xs, d ≠ JValue.jarr xs) :
    relListValidate type_ (.jobj fields) =
      .ok (some (.BadRequest "/data" "You must provide data as list")) := by
  cases d with
  | jarr xs => exact absurd rfl (hne xs)
  | jnull => simp [relListValidate, pyContains, pyGet, hd]
  | jbool b => simp [relListValidate, pyContains, pyGet, hd]
  | jnum n => simp [relListValidate, pyContains, pyGet, hd]
  | jstr s => simp [relListValidate, pyContains, pyGet, hd]
  | jobj f => simp [relListValidate, pyContains, pyGet, hd]

theorem relListValidate_jobj_arr (type_ : String) (fields : List (String × JValue))
    (items : List JValue) (hd : jLookup fields "data" = some (.jarr items)) :
    relListValidate type_ (.jobj fields) = relItemsCheck type_ items := by
  simp [relListValidate, pyContains, pyGet, hd]

theorem relItemsCheck_head_no_type (type_ : String) (ofields : List (String × JValue))
    (rest : List JValue) (h : jLookup ofields "type" = none) :
    relItemsCheck type_ (JValue.jobj ofields :: rest) =
      .ok (some (.BadRequest "/data/type" "Missing type in \"data\" node")) := by
  simp [relItemsCheck, pyContains, h]

theorem relItemsCheck_head_no_id (type_ : String) (ofields : List (String × JValue))
    (rest : List JValue) (tv : JValue) (h : jLookup ofields "type" = some tv)
    (h2 : jLookup ofields "id" = none) :
    relItemsCheck type_ (JValue.jobj ofields :: rest) =
      .ok (some (.BadRequest "/data/id" "Missing id in \"data\" node")) := by
  simp [relItemsCheck, pyContains, h, h2]

theorem relItemsCheck_append (type_ : String) (pre tail : List JValue)
    (h : ∀ v ∈ pre, relItemOkB type_ v = true) :
    relItemsCheck type_ (pre ++ tail) = relItemsCheck type_ tail := by
  induction pre with
  | nil => rfl
  | cons hd tl ih =>
      have hhd : relItemOkB type_ hd = true := h hd (List.mem_cons_self _ _)
      have htl : ∀ v ∈ tl, relItemOkB type_ v = true := fun v hv => h v (List.mem_cons_of_mem _ hv)
      cases hd with
      | jobj f =>
          cases htv : jLookup f "type" with
          | none => simp [relItemOkB, htv] at hhd
          | some tv =>
              cases hid : jLookup f "id" with
              | none => simp [relItemOkB, htv, hid] at hhd
              | some idv =>
                  have heq : jIsStr tv type_ = true := by
                    simpa [relItemOkB, htv, hid] using hhd
                  rw [List.cons_append]
                  simp [relItemsCheck, pyContains, pyGetItem, htv, hid, heq, ih htl]
      | jnull => simp [relItemOkB] at hhd
      | jbool b => simp [relItemOkB] at hhd
      | jnum n => simp [relItemOkB] at hhd
      | jstr s => simp [relItemOkB] at hhd
      | jarr xs => simp [relItemOkB] at hhd

/-! ## Claim theorems -/

/-- C7: for every endpoint kind (every handler table) and every HTTP verb
with no bound handler, `dispatch_request` trips the assertion (the fatal
unimplemented-method condition) and never yields a normal response; the
single exception is a HEAD request with no bound `head` handler, which is
dispatched to the `get` handler when one exists. -/
theorem dispatch_unimplemented_is_fatal (α : Type) (handlers : String → Option α)
    (method : String) :
    (handlers (strLower method) = none → method ≠ "HEAD" →
        Resource.dispatch_request handlers method =
          .fatal ("Unimplemented method " ++ method)) ∧
    (handlers "head" = none → handlers "get" = none →
        Resource.dispatch_request handlers "HEAD" = .fatal ("Unimplemented method " ++ "HEAD")) ∧
    (∀ g, handlers "head" = none → handlers "get" = some g →
        Resource.dispatch_request handlers "HEAD" = .run g) ∧
    (∀ msg h', Resource.dispatch_request handlers method ≠ .fatal msg ∨
        Resource.dispatch_request handlers method ≠ .run h') := by
  have hlow : strLower "HEAD" = "head" := by decide
  refine ⟨?_, ?_, ?_, ?_⟩
  · intro h1 h2
    simp [Resource.dispatch_request, Resource.resolveHandler, h1, h2]
  · intro h1 h2
    simp [Resource.dispatch_request, Resource.resolveHandler, hlow, h1, h2]
  · intro g h1 h2
    simp [Resource.dispatch_request, Resource.resolveHandler, hlow, h1, h2]
  · intro msg h'
    cases hres : Resource.dispatch_request handlers method with
    | fatal m => exact Or.inr (by simp)
    | run g => exact Or.inl (by simp)

/-- C7 witness: on a handler table binding only `get`, a POST dispatch is
fatal and a HEAD dispatch falls back to the `get` handler. -/
theorem dispatch_unimplemented_is_fatal_witness :
    Resource.dispatch_request sampleHandlers "POST" = .fatal ("Unimplemented method " ++ "POST") ∧
    Resource.dispatch_request sampleHandlers "HEAD" = .run 7 :=
  ⟨(dispatch_unimplemented_is_fatal Nat sampleHandlers "POST").1 (by decide) (by decide),
   (dispatch_unimplemented_is_fatal Nat sampleHandlers "HEAD").2.2.1 7 (by decide) (by decide)⟩

/-- C8: the dispatcher's response normalization maps every accepted handler
return shape to the canonical `(body, status, headers)` triple: a raw
non-tuple body to `(body, 200, no headers)`, a `(body, status)` pair to
`(body, status, no headers)`, and a `(body, status, headers)` triple to
itself. -/
theorem dispatch_normalization_canonical (β : Type) (b : β) (s : Nat)
    (h : List (String × String)) :
    Resource.normalizeResp (HandlerResp.raw b) = some (b, 200, []) ∧
    Resource.normalizeResp (HandlerResp.pair b s) = some (b, s, []) ∧
    Resource.normalizeResp (HandlerResp.triple b s h) = some (b, s, h) :=
  ⟨rfl, rfl, rfl⟩

/-- C9 counterexample: on a collection GET whose sparse-fieldset selection
names an invalid field, the handler does return the 400-class envelope, but
the collection-fetch operation has already been invoked — `fetchCollection`
is in the event trace, so the abort does not occur before the fetch side
effect as the claim states. -/
theorem list_get_fetch_precedes_field_check :
    GetEvent.fetchCollection ∈ (ResourceList.get (.invalidField c9err)).fst ∧
    (ResourceList.get (.invalidField c9err)).snd = .errorResp c9err 400 := by
  constructor
  · simp [ResourceList.get]
  · rfl

/-- C9 amended: for collection GET, an invalid sparse-fieldset selection
yields a 400-class error envelope, but only after the persistence contract's
collection-fetch operation has been invoked: the handler fetches first
(`resource.py` line 165) and computes the schema afterwards (line 170). -/
theorem list_get_invalid_field_envelope (e : InvalidFieldE) :
    ResourceList.get (.invalidField e) = ([GetEvent.fetchCollection], .errorResp e 400) ∧
    e.status = 400 :=
  ⟨rfl, rfl⟩

/-- C10: for relationship PATCH, a body whose `data` node is present but is
neither a dict nor a list passes the validation stage with no error and is
forwarded unchanged to the relation-update operation; no 400 response is
produced for this shape. -/
theorem relationship_patch_skips_scalar_data (type_ : String) (selfType : Option String)
    (fields : List (String × JValue)) (d : JValue)
    (hd : jLookup fields "data" = some d)
    (hobj : ∀ f, d ≠ JValue.jobj f) (harr : ∀ xs, d ≠ JValue.jarr xs) :
    Relationship.patch type_ selfType (.jobj fields) = .callLayer (.jobj fields) := by
  cases d with
  | jobj f2 => exact absurd rfl (hobj f2)
  | jarr xs2 => exact absurd rfl (harr xs2)
  | jnull => simp [Relationship.patch, relPatchValidate, pyContains, pyGetItem, hd, collapseRel]
  | jbool b => simp [Relationship.patch, relPatchValidate, pyContains, pyGetItem, hd, collapseRel]
  | jnum n => simp [Relationship.patch, relPatchValidate, pyContains, pyGetItem, hd, collapseRel]
  | jstr s => simp [Relationship.patch, relPatchValidate, pyContains, pyGetItem, hd, collapseRel]

/-- C10 witness: a PATCH body whose `data` is the string `"1"` reaches the
relation-update call with the document unchanged. -/
theorem relationship_patch_skips_scalar_data_witness :
    Relationship.patch "person" none (.jobj c10fields) = .callLayer (.jobj c10fields) :=
  relationship_patch_skips_scalar_data "person" none c10fields (JValue.jstr "1") rfl
    (fun _ h => JValue.noConfusion h) (fun _ h => JValue.noConfusion h)

/-- C4: for collection POST, a document type mismatching the schema's
declared type (the raised `IncorrectTypeError`) yields status 409 with one
error object per mismatch (the error list length is preserved), every error
object carrying status "409" and title "Incorrect type"; `create_object` is
never invoked on this path. -/
theorem list_post_incorrect_type_409 (α : Type) (errs : List MErr) :
    ResourceList.post (LoadResult.incorrectTypeError errs : LoadResult α) =
      .errorResp (errs.map (setStatusTitle "409" "Incorrect type")) 409 ∧
    (errs.map (setStatusTitle "409" "Incorrect type")).length = errs.length ∧
    (∀ e, e ∈ errs.map (setStatusTitle "409" "Incorrect type") →
        e.status = some "409" ∧ e.title = some "Incorrect type") ∧
    (∀ d : α, ResourceList.post (LoadResult.incorrectTypeError errs : LoadResult α) ≠
        .createObject d) := by
  refine ⟨rfl, List.length_map _ _, ?_, ?_⟩
  · intro e he
    simp only [List.mem_map] at he
    obtain ⟨a, _, rfl⟩ := he
    exact ⟨rfl, rfl⟩
  · intro d
    simp [ResourceList.post]

/-- C4 witness: one mismatch error, stamped with status "409" and title
"Incorrect type" by the handler. -/
theorem list_post_incorrect_type_409_witness :
    (setStatusTitle "409" "Incorrect type" mErr0).status = some "409" ∧
    (setStatusTitle "409" "Incorrect type" mErr0).title = some "Incorrect type" :=
  (list_post_incorrect_type_409 Nat [mErr0]).2.2.1 _ (by simp)

/-- C5: for collection POST and single-resource PATCH, failing schema
validation — whether `schema.load` raises `ValidationError` or returns a
non-empty `errors` list — yields exactly one 422 envelope in which every
failing field appears as a separate error object (length preserved) with
status "422" and title "Validation error"; a single request yields the single
envelope returned here. -/
theorem post_patch_validation_422 (α : Type) (errs : List MErr) (data : α)
    (json url : JValue) (hne : errs ≠ []) :
    ResourceList.post (LoadResult.validationError errs : LoadResult α) =
      .errorResp (errs.map (setStatusTitle "422" "Validation error")) 422 ∧
    ResourceList.post (LoadResult.loaded data errs) =
      .errorResp (errs.map (setStatusTitle "422" "Validation error")) 422 ∧
    ResourceDetail.patch (LoadResult.validationError errs : LoadResult α) json url =
      .errorResp (errs.map (setStatusTitle "422" "Validation error")) 422 ∧
    ResourceDetail.patch (LoadResult.loaded data errs) json url =
      .errorResp (errs.map (setStatusTitle "422" "Validation error")) 422 ∧
    (errs.map (setStatusTitle "422" "Validation error")).length = errs.length ∧
    (∀ e, e ∈ errs.map (setStatusTitle "422" "Validation error") →
        e.status = some "422" ∧ e.title = some "Validation error") := by
  have hempty : errs.isEmpty = false := by
    cases errs with
    | nil => exact absurd rfl hne
    | cons a l => rfl
  refine ⟨rfl, ?_, rfl, ?_, List.length_map _ _, ?_⟩
  · simp [ResourceList.post, hempty]
  · simp [ResourceDetail.patch, hempty]
  · intro e he
    simp only [List.mem_map] at he
    obtain ⟨a, _, rfl⟩ := he
    exact ⟨rfl, rfl⟩

/-- C5 witness: a single failing field on the returned-errors path of
collection POST becomes the one 422 envelope. -/
theorem post_patch_validation_422_witness :
    ResourceList.post (LoadResult.loaded (0 : Nat) [mErr1]) =
      .errorResp [setStatusTitle "422" "Validation error" mErr1] 422 :=
  (post_patch_validation_422 Nat [mErr1] 0 JValue.jnull JValue.jnull
    (List.cons_ne_nil _ _)).2.1

/-- C6: for single-resource PATCH with a document that passes schema
validation, a `data` node without `id` yields the `BadRequest` with pointer
`/data/id` and detail `Missing id in "data" node`; a `data.id` unequal to the
route identifier yields the `BadRequest` with the same pointer and the
distinct detail `Value of id does not match the resource identifier in url`;
both carry status 400, and in both cases the handler never reaches the
`get_object` / `update_object` stage (`proceed`). -/
theorem detail_patch_id_checks (α : Type) (data : α) (fields dfields : List (String × JValue))
    (url : JValue) (hdata : jLookup fields "data" = some (.jobj dfields)) :
    (jLookup dfields "id" = none →
        ResourceDetail.patch (LoadResult.loaded data [] : LoadResult α) (.jobj fields) url =
          .apiError (.BadRequest "/data/id" "Missing id in \"data\" node") ∧
        ∀ d : α, ResourceDetail.patch (LoadResult.loaded data [] : LoadResult α)
            (.jobj fields) url ≠ .proceed d) ∧
    (∀ idv, jLookup dfields "id" = some idv → jvalBeq idv url = false →
        ResourceDetail.patch (LoadResult.loaded data [] : LoadResult α) (.jobj fields) url =
          .apiError (.BadRequest "/data/id"
            "Value of id does not match the resource identifier in url") ∧
        ∀ d : α, ResourceDetail.patch (LoadResult.loaded data [] : LoadResult α)
            (.jobj fields) url ≠ .proceed d) ∧
    (ApiExc.BadRequest "/data/id" "Missing id in \"data\" node").status = 400 ∧
    (ApiExc.BadRequest "/data/id"
        "Value of id does not match the resource identifier in url").status = 400 ∧
    ("Missing id in \"data\" node" ≠
        "Value of id does not match the resource identifier in url") := by
  refine ⟨?_, ?_, rfl, rfl, by decide⟩
  · intro hid
    have heq : ResourceDetail.patch (LoadResult.loaded data [] : LoadResult α)
        (.jobj fields) url = .apiError (.BadRequest "/data/id" "Missing id in \"data\" node") := by
      simp [ResourceDetail.patch, pyGetItem, pyContains, hdata, hid]
    exact ⟨heq, fun d => by rw [heq]; simp⟩
  · intro idv hid hb
    have heq : ResourceDetail.patch (LoadResult.loaded data [] : LoadResult α)
        (.jobj fields) url = .apiError (.BadRequest "/data/id"
          "Value of id does not match the resource identifier in url") := by
      simp [ResourceDetail.patch, pyGetItem, pyContains, hdata, hid, hb]
    exact ⟨heq, fun d => by rw [heq]; simp⟩

/-- C6 witness: a PATCH body without `data.id` is rejected at `/data/id`, and
one whose `data.id` is `"2"` against route identifier `"1"` is rejected at
the same pointer with the distinct detail. -/
theorem detail_patch_id_checks_witness :
    ResourceDetail.patch (LoadResult.loaded (0 : Nat) []) (.jobj c6fieldsNoId)
        (JValue.jstr "1") =
      .apiError (.BadRequest "/data/id" "Missing id in \"data\" node") ∧
    ResourceDetail.patch (LoadResult.loaded (0 : Nat) []) (.jobj c6fieldsId2)
        (JValue.jstr "1") =
      .apiError (.BadRequest "/data/id"
        "Value of id does not match the resource identifier in url") :=
  ⟨((detail_patch_id_checks Nat 0 c6fieldsNoId [("type", JValue.jstr "person")]
      (JValue.jstr "1") rfl).1 rfl).1,
   ((detail_patch_id_checks Nat 0 c6fieldsId2
      [("type", JValue.jstr "person"), ("id", JValue.jstr "2")]
      (JValue.jstr "1") rfl).2.1 (JValue.jstr "2") rfl rfl).1⟩

/-- C1 (code defect): the list branch of `Relationship.patch` checks
`obj['type'] != self.type_` (`resource.py` line 397) — the class attribute —
instead of the schema's declared type `type_ = self.schema.opts.type_` used
by `Relationship.post`, `Relationship.delete` and the single-object branch
of `patch` itself.  On a PATCH whose list item carries type "person" against
a schema declaring "computer": with no `type_` class attribute the
comparison raises an uncaught `AttributeError`; with a `type_` attribute
equal to "person" the mismatched item passes validation and is forwarded to
`update_relation`.  Neither path is the claimed 400 `InvalidType` rejection,
while the same document is rejected through `InvalidType` by POST (third
conjunct) and the same item as a single object is rejected by the dict
branch of PATCH (fourth conjunct). -/
theorem relationship_patch_list_type_check_divergence :
    Relationship.patch "computer" none c1doc = .fatal "AttributeError: no attribute type_" ∧
    Relationship.patch "computer" (some "person") c1doc = .callLayer c1doc ∧
    Relationship.post "computer" c1doc =
      .error (.InvalidType "/data/type" "The type provided does not match the resource type") ∧
    Relationship.patch "computer" (some "person")
        (JValue.jobj [("data", JValue.jobj [("type", JValue.jstr "person"),
          ("id", JValue.jstr "1")])]) =
      .error (.InvalidType "/data/type" "The type field does not match the resource type") :=
  ⟨rfl, rfl, rfl, rfl⟩

/-- C2 (code defect): `Relationship.get` writes the resolved attribute values
back into `self.opts.endpoint_kwargs` (`resource.py` line 323), mutating the
class-level options record bound at registration time: after one GET against
an owner whose `owner.id` is `"5"`, the template entry `("id", "owner.id")`
has been replaced by `("id", "5")` in the Endpoint Type state, contradicting
the invariant that a request never mutates Endpoint Type configuration. -/
theorem relationship_get_mutates_endpoint_kwargs :
    (Relationship.get_links c2opts [] c2owner).fst.endpoint_kwargs =
      some [("id", PyObj.strv "5")] ∧
    (Relationship.get_links c2opts [] c2owner).fst.endpoint_kwargs ≠
      c2opts.endpoint_kwargs := by
  have h1 : (Relationship.get_links c2opts [] c2owner).fst.endpoint_kwargs =
      some [("id", PyObj.strv "5")] := rfl
  refine ⟨h1, ?_⟩
  rw [h1]
  intro h
  simp only [c2opts, Option.some.injEq, List.cons.injEq, Prod.mk.injEq] at h
  exact absurd h.1.2 (by simp [PyObj.strv.injEq])

/-- C3: for relationship POST and relationship DELETE — a body without a
`data` key, or with a non-list `data`, yields the 400 `BadRequest` with
pointer `/data`; a list item lacking `type` (resp. having `type` but lacking
`id`), reached after items that pass every check, yields 400 with pointer
`/data/type` (resp. `/data/id`); `BadRequest` carries status 400, and in
every error case the result is the error response, never the
relation-create / relation-delete invocation (`callLayer`). -/
theorem relationship_post_delete_reject_before_layer (type_ : String)
    (fields : List (String × JValue)) :
    (jLookup fields "data" = none →
        Relationship.post type_ (.jobj fields) =
          .error (.BadRequest "/data" "You must provide data with a \"data\" route node") ∧
        Relationship.delete type_ (.jobj fields) =
          .error (.BadRequest "/data" "You must provide data with a \"data\" route node")) ∧
    (∀ d, jLookup fields "data" = some d → (∀ xs, d ≠ JValue.jarr xs) →
        Relationship.post type_ (.jobj fields) =
          .error (.BadRequest "/data" "You must provide data as list") ∧
        Relationship.delete type_ (.jobj fields) =
          .error (.BadRequest "/data" "You must provide data as list")) ∧
    (∀ pre ofields rest,
        jLookup fields "data" = some (.jarr (pre ++ JValue.jobj ofields :: rest)) →
        (∀ v ∈ pre, relItemOkB type_ v = true) →
        (jLookup ofields "type" = none →
            Relationship.post type_ (.jobj fields) =
              .error (.BadRequest "/data/type" "Missing type in \"data\" node") ∧
            Relationship.delete type_ (.jobj fields) =
              .error (.BadRequest "/data/type" "Missing type in \"data\" node")) ∧
        (∀ tv, jLookup ofields "type" = some tv → jLookup ofields "id" = none →
            Relationship.post type_ (.jobj fields) =
              .error (.BadRequest "/data/id" "Missing id in \"data\" node") ∧
            Relationship.delete type_ (.jobj fields) =
              .error (.BadRequest "/data/id" "Missing id in \"data\" node"))) ∧
    (∀ p dt, (ApiExc.BadRequest p dt).status = 400) ∧
    (∀ e doc, Relationship.post type_ (.jobj fields) = .error e →
        Relationship.post type_ (.jobj fields) ≠ .callLayer doc) ∧
    (∀ e doc, Relationship.delete type_ (.jobj fields) = .error e →
        Relationship.delete type_ (.jobj fields) ≠ .callLayer doc) := by
  refine ⟨?_, ?_, ?_, fun p dt => rfl, ?_, ?_⟩
  · intro h
    constructor <;>
      simp [Relationship.post, Relationship.delete, collapseRel,
        relListValidate_jobj_no_data type_ fields h]
  · intro d hd hne
    constructor <;>
      simp [Relationship.post, Relationship.delete, collapseRel,
        relListValidate_jobj_nonlist type_ fields d hd hne]
  · intro pre ofields rest hd hpre
    have hitems : relItemsCheck type_ (pre ++ JValue.jobj ofields :: rest) =
        relItemsCheck type_ (JValue.jobj ofields :: rest) :=
      relItemsCheck_append type_ pre _ hpre
    constructor
    · intro htype
      constructor <;>
        simp [Relationship.post, Relationship.delete, collapseRel,
          relListValidate_jobj_arr type_ fields _ hd, hitems,
          relItemsCheck_head_no_type type_ ofields rest htype]
    · intro tv htype hid
      constructor <;>
        simp [Relationship.post, Relationship.delete, collapseRel,
          relListValidate_jobj_arr type_ fields _ hd, hitems,
          relItemsCheck_head_no_id type_ ofields rest tv htype hid]
  · intro e doc h
    rw [h]
    simp
  · intro e doc h
    rw [h]
    simp

/-- C3 witness: a body without `data` is rejected at `/data` on POST, a
dict-shaped `data` is rejected at `/data` on DELETE, and a list item lacking
`id` is rejected at `/data/id` on POST. -/
theorem relationship_post_delete_reject_before_layer_witness :
    Relationship.post "person" (.jobj c3fieldsNoData) =
      .error (.BadRequest "/data" "You must provide data with a \"data\" route node") ∧
    Relationship.delete "person" (.jobj c3fieldsDictData) =
      .error (.BadRequest "/data" "You must provide data as list") ∧
    Relationship.post "person" (.jobj c3fieldsNoId) =
      .error (.BadRequest "/data/id" "Missing id in \"data\" node") :=
  ⟨((relationship_post_delete_reject_before_layer "person" c3fieldsNoData).1 rfl).1,
   ((relationship_post_delete_reject_before_layer "person" c3fieldsDictData).2.1
      (JValue.jobj [("type", JValue.jstr "person"), ("id", JValue.jstr "1")]) rfl
      (fun _ h => JValue.noConfusion h)).2,
   (((relationship_post_delete_reject_before_layer "person" c3fieldsNoId).2.2.1
      [] [("type", JValue.jstr "person")] [] rfl (by simp)).2
      (JValue.jstr "person") rfl rfl).1⟩
